import Mathlib

/-!
Shallow embedding of the webrender-native bindings core
(RenderCompositor.cpp, RenderThread.h) and proofs about the claims of
its specification.

The embedding follows the C++ source where it is present under
src/webrender_bindings.  The RenderThread implementation file is not part
of the sources (only RenderThread.h is), so the per-window frame tracker,
the external texture registry and the device-reset handler are modelled
from the specification text; each such definition says so in its
doc comment.
-/

/-- Compile-time platform and runtime configuration under which
RenderCompositor::Create runs.  Each field models one preprocessor symbol
(XP_WIN, MOZ_WAYLAND, MOZ_WIDGET_ANDROID, XP_MACOSX) or the runtime flag
gfx::gfxVars::UseWebRenderANGLE(). -/
structure PlatformConfig where
  xpWin : Bool
  mozWayland : Bool
  mozWidgetAndroid : Bool
  xpMacosx : Bool
  useWebRenderANGLE : Bool
deriving DecidableEq

/-- The result of gl::GLContext::MakeCurrent() on a given context; the GL
context itself is an external collaborator, so only the observable result
is modelled. -/
structure GLContext where
  makeCurrentResult : Bool
deriving DecidableEq

/-- A constructed RenderCompositor.  The base class state visible to the
embedded methods is the gl() accessor, which may yield no context
(a null gl::GLContext pointer). -/
structure RenderCompositor where
  gl : Option GLContext
deriving DecidableEq

/-- Construction outcomes of the four candidate backend factories
(RenderCompositorANGLE::Create, RenderCompositorEGL::Create,
RenderCompositorNativeOGL::Create, RenderCompositorOGL::Create).  The
factories live in excluded per-backend files, so their results are
parameters: none models a factory returning nullptr. -/
structure FactoryResults where
  angle : Option RenderCompositor
  egl : Option RenderCompositor
  nativeOGL : Option RenderCompositor
  ogl : Option RenderCompositor
deriving DecidableEq

/-- The tail of RenderCompositor::Create after the EGL block
(RenderCompositor.cpp lines 129-137): nullptr on Android
(RenderCompositorOGL is not used on android), RenderCompositorNativeOGL
on macOS, RenderCompositorOGL otherwise. -/
def createTail (cfg : PlatformConfig) (f : FactoryResults) : Option RenderCompositor :=
  if cfg.mozWidgetAndroid then none
  else if cfg.xpMacosx then f.nativeOGL
  else f.ogl

/-- RenderCompositor::Create (RenderCompositor.cpp lines 112-138).  Under
XP_WIN with UseWebRenderANGLE() the ANGLE factory result is returned
directly; under MOZ_WAYLAND or MOZ_WIDGET_ANDROID the EGL factory is
tried and only its failure falls through to the tail. -/
def RenderCompositor.Create (cfg : PlatformConfig) (f : FactoryResults) :
    Option RenderCompositor :=
  if cfg.xpWin && cfg.useWebRenderANGLE then f.angle
  else
    match (if cfg.mozWayland || cfg.mozWidgetAndroid then f.egl else none) with
    | some eglCompositor => some eglCompositor
    | none => createTail cfg f

/-- RenderCompositor::MakeCurrent (RenderCompositor.cpp lines 145-148):
returns true when gl() is null, otherwise the result of making the
context current. -/
def RenderCompositor.MakeCurrent (c : RenderCompositor) : Bool :=
  match c.gl with
  | none => true
  | some context => context.makeCurrentResult

/-- RenderCompositor::IsContextLost (RenderCompositor.cpp lines 150-154):
the body is the stub return false, with an XXX comment deferring a real
glGetGraphicsResetStatus query. -/
def RenderCompositor.IsContextLost (_c : RenderCompositor) : Bool := false

/-- Claim C1, counterexample: on a Windows configuration with ANGLE
enabled, the ANGLE factory failing makes Create return none even though
the generic OpenGL candidate, later in the priority list, would succeed.
So a single earlier candidate failure can make Create return none. -/
theorem Create_fallback_counterexample :
    RenderCompositor.Create ⟨true, false, false, false, true⟩
      ⟨none, none, none, some ⟨none⟩⟩ = none ∧
    (⟨none, none, none, some ⟨none⟩⟩ : FactoryResults).ogl.isSome = true := by
  exact ⟨rfl, rfl⟩

/-- Claim C1, amended: fallback exists only out of the EGL candidate.  On
every configuration that is not Windows-with-ANGLE, not Android and not
macOS, Create succeeds exactly when the EGL candidate (on Wayland) or the
generic OpenGL fallback constructs; in particular an EGL construction
failure never makes Create return none while the OpenGL fallback
succeeds. -/
theorem Create_fallback_chain (cfg : PlatformConfig) (f : FactoryResults)
    (h1 : cfg.xpWin = false ∨ cfg.useWebRenderANGLE = false)
    (h2 : cfg.mozWidgetAndroid = false)
    (h3 : cfg.xpMacosx = false) :
    (RenderCompositor.Create cfg f).isSome
      = ((cfg.mozWayland && f.egl.isSome) || f.ogl.isSome) := by
  rcases h1 with h1 | h1 <;>
    cases hwl : cfg.mozWayland <;>
    cases hegl : f.egl <;>
    simp [RenderCompositor.Create, createTail, h1, h2, h3, hwl, hegl]

/-- Witness for Create_fallback_chain at a Wayland configuration where
only the OpenGL fallback constructs. -/
theorem Create_fallback_chain_witness :
    (RenderCompositor.Create ⟨false, true, false, false, false⟩
        ⟨none, none, none, some ⟨none⟩⟩).isSome
      = (((⟨false, true, false, false, false⟩ : PlatformConfig).mozWayland &&
          (⟨none, none, none, some ⟨none⟩⟩ : FactoryResults).egl.isSome) ||
          (⟨none, none, none, some ⟨none⟩⟩ : FactoryResults).ogl.isSome) :=
  Create_fallback_chain ⟨false, true, false, false, false⟩
    ⟨none, none, none, some ⟨none⟩⟩ (Or.inl rfl) rfl rfl

/-- Claim C5: RenderCompositor::IsContextLost returns false for every
compositor state; the context-lost query is an always-false stub. -/
theorem isContextLost_always_false (c : RenderCompositor) :
    c.IsContextLost = false := rfl

/-- Claim C9: MakeCurrent returns true whenever the gl() accessor yields
no context, and otherwise returns exactly the result of making that
context current. -/
theorem makeCurrent_null_gl_true (c : RenderCompositor) :
    (c.gl = none → c.MakeCurrent = true) ∧
    (∀ context : GLContext, c.gl = some context →
      c.MakeCurrent = context.makeCurrentResult) := by
  constructor
  · intro h
    simp [RenderCompositor.MakeCurrent, h]
  · intro context h
    simp [RenderCompositor.MakeCurrent, h]

/-- Witness for makeCurrent_null_gl_true: a compositor without a GL
context reports success, and one whose context fails to become current
reports that failure. -/
theorem makeCurrent_null_gl_true_witness :
    (RenderCompositor.mk none).MakeCurrent = true ∧
    (RenderCompositor.mk (some ⟨false⟩)).MakeCurrent = false :=
  ⟨(makeCurrent_null_gl_true ⟨none⟩).1 rfl,
   (makeCurrent_null_gl_true ⟨some ⟨false⟩⟩).2 ⟨false⟩ rfl⟩

/-- An opaque wr::WrThreadPool handle; a nonnull pointer is modelled by
some value carrying an identity. -/
structure WrThreadPool where
  handle : Nat
deriving DecidableEq

/-- State of a WebRenderThreadPool: the mThreadPool pointer, which is
null (none) after Release() during late shutdown. -/
structure WebRenderThreadPool where
  mThreadPool : Option WrThreadPool
deriving DecidableEq

/-- Outcome of WebRenderThreadPool::Raw: either the fatal
MOZ_RELEASE_ASSERT on a null pointer, or the returned pool handle. -/
inductive RawResult where
  | fatalAssert
  | ok (pool : WrThreadPool)
deriving DecidableEq

/-- WebRenderThreadPool::Raw (RenderThread.h lines 54-59):
MOZ_RELEASE_ASSERT(mThreadPool) then return mThreadPool. -/
def WebRenderThreadPool.Raw (p : WebRenderThreadPool) : RawResult :=
  match p.mThreadPool with
  | none => RawResult.fatalAssert
  | some pool => RawResult.ok pool

/-- Claim C10: Raw never returns a null pool: when the internal pointer
is null the call is a fatal release assertion, and every returned value
is the valid stored handle. -/
theorem threadPool_raw_never_null (p : WebRenderThreadPool) :
    (p.mThreadPool = none → p.Raw = RawResult.fatalAssert) ∧
    (∀ pool : WrThreadPool, p.Raw = RawResult.ok pool →
      p.mThreadPool = some pool) := by
  constructor
  · intro h
    simp [WebRenderThreadPool.Raw, h]
  · intro pool h
    cases hp : p.mThreadPool with
    | none => simp [WebRenderThreadPool.Raw, hp] at h
    | some q =>
      simp [WebRenderThreadPool.Raw, hp] at h
      rw [h]

/-- Witness for threadPool_raw_never_null: the null pointer state is a
fatal assertion, and a live pool is returned as stored. -/
theorem threadPool_raw_never_null_witness :
    (WebRenderThreadPool.mk none).Raw = RawResult.fatalAssert ∧
    (WebRenderThreadPool.mk (some ⟨0⟩)).mThreadPool = some ⟨0⟩ :=
  ⟨(threadPool_raw_never_null ⟨none⟩).1 rfl,
   (threadPool_raw_never_null ⟨some ⟨0⟩⟩).2 ⟨0⟩ rfl⟩

/-- RenderThread::PendingFrameInfo (RenderThread.h lines 313-317): the
start timestamp, the start vsync id, and the accumulated needs-render
flag, which starts false. -/
structure PendingFrameInfo where
  mStartTime : Nat
  mStartId : Nat
  mFrameNeedsRender : Bool
deriving DecidableEq

/-- RenderThread::WindowInfo (RenderThread.h lines 319-326): the FIFO
pending-frame queue (front first), the pending scene-build counter and
the destroyed flag. -/
structure WindowInfo where
  mPendingFrames : List PendingFrameInfo
  mPendingFrameBuild : Nat
  mIsDestroyed : Bool
deriving DecidableEq

/-- WindowInfo::PendingCount (RenderThread.h line 320): the size of the
pending-frame queue. -/
def WindowInfo.PendingCount (w : WindowInfo) : Nat := w.mPendingFrames.length

/-- Modelled from the spec: the RenderThread implementation file is not
under src/, so TooManyPendingFrames is modelled from the capacity-check
reading of the spec (the query reports the queue being at, or
defensively above, its backpressure ceiling; producers must stop issuing
frame requests while it holds). -/
def WindowInfo.TooManyPendingFrames (w : WindowInfo) (ceiling : Nat) : Bool :=
  decide (ceiling ≤ w.PendingCount)

/-- Modelled from the spec: IncPendingFrameCount appends a record with
needsRender false; a destroyed window accepts no new records. -/
def WindowInfo.IncPendingFrameCount (w : WindowInfo) (aStartId aStartTime : Nat) :
    WindowInfo :=
  if w.mIsDestroyed then w
  else { w with mPendingFrames := w.mPendingFrames ++ [⟨aStartTime, aStartId, false⟩] }

/-- Modelled from the spec: HandleFrameOneDoc ORs the render flag of one
contributing document into the needs-render flag of the front pending
record; on a destroyed window, or with no pending frame, it is a no-op.
The per-frame arrival counter that decides when the composite fires is
separate bookkeeping and is not needed by the claims, so it is not
modelled. -/
def WindowInfo.HandleFrameOneDoc (w : WindowInfo) (aRender : Bool) : WindowInfo :=
  if w.mIsDestroyed then w
  else
    match w.mPendingFrames with
    | [] => w
    | f :: rest =>
        { w with mPendingFrames :=
            { f with mFrameNeedsRender := f.mFrameNeedsRender || aRender } :: rest }

/-- Modelled from the spec: SetDestroyed marks the window destroyed, a
terminal state. -/
def WindowInfo.SetDestroyed (w : WindowInfo) : WindowInfo :=
  { w with mIsDestroyed := true }

/-- The accumulated render decision of the frame currently at the front
of the queue (false when no frame is pending). -/
def WindowInfo.frontNeedsRender (w : WindowInfo) : Bool :=
  match w.mPendingFrames with
  | [] => false
  | f :: _ => f.mFrameNeedsRender

/-- One per-window operation of the frame-pacing protocol. -/
inductive FrameOp where
  | inc (startId startTime : Nat)
  | oneDoc (render : Bool)
  | complete
  | destroy
deriving DecidableEq

/-- Modelled from the spec: one protocol step on a window.  A producer
checks TooManyPendingFrames before issuing a frame request, so a request
at the ceiling is not issued; completing a frame dequeues the front
record, with a composite (carrying the accumulated render decision, the
second component) only for a live window; on a destroyed window
outstanding records are drained without side effects. -/
def stepFrame (ceiling : Nat) (w : WindowInfo) : FrameOp → WindowInfo × Option Bool
  | FrameOp.inc i t =>
      if w.TooManyPendingFrames ceiling then (w, none)
      else (w.IncPendingFrameCount i t, none)
  | FrameOp.oneDoc r => (w.HandleFrameOneDoc r, none)
  | FrameOp.complete =>
      if w.mIsDestroyed then
        ({ w with mPendingFrames := w.mPendingFrames.tail }, none)
      else
        match w.mPendingFrames with
        | [] => (w, none)
        | f :: rest => ({ w with mPendingFrames := rest }, some f.mFrameNeedsRender)
  | FrameOp.destroy => (w.SetDestroyed, none)

/-- Running a sequence of frame-pacing operations, keeping the window
state. -/
def runFrameOps (ceiling : Nat) (w : WindowInfo) (ops : List FrameOp) : WindowInfo :=
  ops.foldl (fun s op => (stepFrame ceiling s op).1) w

/-- The window state before any frame activity. -/
def initWindowInfo : WindowInfo := ⟨[], 0, false⟩

lemma handleFrameOneDoc_pendingCount (w : WindowInfo) (r : Bool) :
    (w.HandleFrameOneDoc r).PendingCount = w.PendingCount := by
  unfold WindowInfo.HandleFrameOneDoc
  split
  · rfl
  · cases h : w.mPendingFrames with
    | nil => rfl
    | cons f rest => simp [WindowInfo.PendingCount, h]

lemma stepFrame_pendingCount_le (ceiling : Nat) (w : WindowInfo) (op : FrameOp)
    (h : w.PendingCount ≤ ceiling) :
    (stepFrame ceiling w op).1.PendingCount ≤ ceiling := by
  cases op with
  | inc i t =>
    by_cases htm : w.TooManyPendingFrames ceiling = true
    · simpa [stepFrame, htm] using h
    · have hlt : w.PendingCount < ceiling := by
        simp only [WindowInfo.TooManyPendingFrames, decide_eq_true_eq] at htm
        omega
      by_cases hd : w.mIsDestroyed = true
      · simpa [stepFrame, htm, WindowInfo.IncPendingFrameCount, hd] using h
      · simp only [WindowInfo.PendingCount] at hlt
        simp [stepFrame, htm, WindowInfo.IncPendingFrameCount, hd,
          WindowInfo.PendingCount]
        omega
  | oneDoc r =>
    show (w.HandleFrameOneDoc r).PendingCount ≤ ceiling
    rw [handleFrameOneDoc_pendingCount]
    exact h
  | complete =>
    by_cases hd : w.mIsDestroyed = true
    · simp only [WindowInfo.PendingCount] at h
      simp [stepFrame, hd, WindowInfo.PendingCount, List.length_tail]
      omega
    · cases hq : w.mPendingFrames with
      | nil =>
        simp [stepFrame, hd, hq, WindowInfo.PendingCount]
      | cons f rest =>
        have h2 : rest.length + 1 ≤ ceiling := by
          simp only [WindowInfo.PendingCount, hq, List.length_cons] at h
          exact h
        simp [stepFrame, hd, hq, WindowInfo.PendingCount]
        omega
  | destroy => exact h

lemma runFrameOps_pendingCount_le (ceiling : Nat) (ops : List FrameOp) :
    ∀ w : WindowInfo, w.PendingCount ≤ ceiling →
      (runFrameOps ceiling w ops).PendingCount ≤ ceiling := by
  induction ops with
  | nil => intro w h; exact h
  | cons op ops ih =>
    intro w h
    exact ih _ (stepFrame_pendingCount_le ceiling w op h)

/-- Claim C2: over every sequence of frame-pacing operations from a fresh
window, the pending-frame queue length never exceeds the backpressure
ceiling, and TooManyPendingFrames holds exactly when the length equals
the ceiling. -/
theorem pendingFrames_never_exceed_ceiling (ceiling : Nat) (ops : List FrameOp) :
    (runFrameOps ceiling initWindowInfo ops).PendingCount ≤ ceiling ∧
    (runFrameOps ceiling initWindowInfo ops).TooManyPendingFrames ceiling
      = decide ((runFrameOps ceiling initWindowInfo ops).PendingCount = ceiling) := by
  have hle := runFrameOps_pendingCount_le ceiling ops initWindowInfo
    (by simp [initWindowInfo, WindowInfo.PendingCount])
  refine ⟨hle, ?_⟩
  unfold WindowInfo.TooManyPendingFrames
  rw [decide_eq_decide]
  omega

lemma any_id_eq_of_perm (l lp : List Bool) (h : l.Perm lp) :
    l.any id = lp.any id := by
  rw [Bool.eq_iff_iff, List.any_eq_true, List.any_eq_true]
  constructor
  · rintro ⟨x, hx, hid⟩
    exact ⟨x, h.mem_iff.1 hx, hid⟩
  · rintro ⟨x, hx, hid⟩
    exact ⟨x, h.mem_iff.2 hx, hid⟩

lemma handleFrameOneDoc_foldl (l : List Bool) :
    ∀ (f : PendingFrameInfo) (rest : List PendingFrameInfo) (pb : Nat),
      l.foldl WindowInfo.HandleFrameOneDoc ⟨f :: rest, pb, false⟩ =
        ⟨⟨f.mStartTime, f.mStartId, f.mFrameNeedsRender || l.any id⟩ :: rest, pb, false⟩ := by
  induction l with
  | nil =>
    intro f rest pb
    simp [List.foldl]
  | cons a l ih =>
    intro f rest pb
    have hstep : WindowInfo.HandleFrameOneDoc ⟨f :: rest, pb, false⟩ a =
        ⟨⟨f.mStartTime, f.mStartId, f.mFrameNeedsRender || a⟩ :: rest, pb, false⟩ := by
      simp [WindowInfo.HandleFrameOneDoc]
    rw [List.foldl_cons, hstep, ih]
    simp [Bool.or_assoc]

/-- Claim C3: the render decision accumulated by HandleFrameOneDoc is
order-independent: folding the per-document calls over any permutation
of the per-document render flags leaves the front record deciding to
composite exactly when the logical OR of all the flags holds. -/
theorem handleFrameOneDoc_order_independent (f : PendingFrameInfo)
    (rest : List PendingFrameInfo) (pb : Nat) (docs docsPerm : List Bool)
    (hperm : docs.Perm docsPerm) (hf : f.mFrameNeedsRender = false) :
    WindowInfo.frontNeedsRender
        (docsPerm.foldl WindowInfo.HandleFrameOneDoc ⟨f :: rest, pb, false⟩)
      = docs.any id := by
  rw [handleFrameOneDoc_foldl]
  rw [any_id_eq_of_perm docs docsPerm hperm]
  simp [WindowInfo.frontNeedsRender, hf]

/-- Witness for handleFrameOneDoc_order_independent: two documents with
flags false and true, arriving in the opposite order, still produce a
composite decision equal to the OR of the flags. -/
theorem handleFrameOneDoc_order_independent_witness :
    WindowInfo.frontNeedsRender
        ([true, false].foldl WindowInfo.HandleFrameOneDoc ⟨[⟨0, 0, false⟩], 0, false⟩)
      = [false, true].any id :=
  handleFrameOneDoc_order_independent ⟨0, 0, false⟩ [] 0 [false, true] [true, false]
    (by decide) rfl

/-- Claim C8: once the destroyed flag of a window is set it stays set
through every operation, no operation grows the pending-frame queue, and
no drained operation produces a composite side effect. -/
theorem destroyed_window_terminal_noop (ceiling : Nat) (w : WindowInfo)
    (op : FrameOp) (h : w.mIsDestroyed = true) :
    (stepFrame ceiling w op).1.mIsDestroyed = true ∧
    (stepFrame ceiling w op).1.PendingCount ≤ w.PendingCount ∧
    (stepFrame ceiling w op).2 = none := by
  cases op with
  | inc i t =>
    by_cases htm : w.TooManyPendingFrames ceiling = true
    · simp [stepFrame, htm, h]
    · simp [stepFrame, htm, WindowInfo.IncPendingFrameCount, h]
  | oneDoc r =>
    exact ⟨by simp [stepFrame, WindowInfo.HandleFrameOneDoc, h],
      by simp [stepFrame, WindowInfo.HandleFrameOneDoc, h], rfl⟩
  | complete =>
    refine ⟨by simp [stepFrame, h], ?_, by simp [stepFrame, h]⟩
    simp [stepFrame, h, WindowInfo.PendingCount, List.length_tail]
  | destroy =>
    exact ⟨rfl, Nat.le_refl _, rfl⟩

/-- Witness for destroyed_window_terminal_noop: a destroyed window with
one outstanding record, receiving a new frame request. -/
theorem destroyed_window_terminal_noop_witness :
    (stepFrame 8 ⟨[⟨0, 0, false⟩], 0, true⟩ (FrameOp.inc 1 2)).1.mIsDestroyed = true ∧
    (stepFrame 8 ⟨[⟨0, 0, false⟩], 0, true⟩ (FrameOp.inc 1 2)).1.PendingCount ≤
      (⟨[⟨0, 0, false⟩], 0, true⟩ : WindowInfo).PendingCount ∧
    (stepFrame 8 ⟨[⟨0, 0, false⟩], 0, true⟩ (FrameOp.inc 1 2)).2 = none :=
  destroyed_window_terminal_noop 8 ⟨[⟨0, 0, false⟩], 0, true⟩ (FrameOp.inc 1 2) rfl

/-- A RenderTextureHost resource; distinct tokens are independent
resources. -/
structure RenderTextureHost where
  token : Nat
deriving DecidableEq

/-- The registry and device state of the render thread that the external
texture claims need: the primary external-image map
(mRenderTextures), the prepare-for-use queue
(mRenderTexturesPrepareForUse), the deferred-destruction queue
(mRenderTexturesDeferred), the shared GL context and surface pool
liveness, and the device-reset flag (RenderThread.h lines 303-343). -/
structure RenderThreadState where
  mRenderTextures : List (Nat × RenderTextureHost)
  mRenderTexturesPrepareForUse : List RenderTextureHost
  mRenderTexturesDeferred : List RenderTextureHost
  mSharedGL : Bool
  mSurfacePool : Bool
  mHandlingDeviceReset : Bool
deriving DecidableEq

/-- Modelled from the spec: GetRenderTexture looks the external image id
up in the primary map (the RenderThread implementation file is not under
src/). -/
def RenderThreadState.GetRenderTexture (s : RenderThreadState)
    (aExternalImageId : Nat) : Option RenderTextureHost :=
  (s.mRenderTextures.find? (fun p => p.1 == aExternalImageId)).map (fun p => p.2)

/-- Outcome of RegisterExternalImage: the assertion-level fatal failure
on a duplicate id, or the updated registry state. -/
inductive RegisterResult where
  | fatalAssert
  | ok (s : RenderThreadState)
deriving DecidableEq

/-- Modelled from the spec: RegisterExternalImage inserts the texture
under the id, failing loudly (assertion-level fatal) on a duplicate
id. -/
def RenderThreadState.RegisterExternalImage (s : RenderThreadState) (id : Nat)
    (tex : RenderTextureHost) : RegisterResult :=
  if (s.GetRenderTexture id).isSome then RegisterResult.fatalAssert
  else RegisterResult.ok
    { s with mRenderTextures := (id, tex) :: s.mRenderTextures }

/-- Modelled from the spec: UnregisterExternalImage removes the id from
the primary map and transfers the removed reference to the
deferred-destruction set rather than freeing in place (the
still-referenced-elsewhere refcount test is abstracted: the deferred
release path is always taken). -/
def RenderThreadState.UnregisterExternalImage (s : RenderThreadState)
    (id : Nat) : RenderThreadState :=
  { s with
    mRenderTextures := s.mRenderTextures.filter (fun p => p.1 != id),
    mRenderTexturesDeferred :=
      (s.mRenderTextures.filter (fun p => p.1 == id)).map (fun p => p.2)
        ++ s.mRenderTexturesDeferred }

/-- Modelled from the spec: PrepareForUse moves the entry of the id into
the prepare-for-use queue. -/
def RenderThreadState.PrepareForUse (s : RenderThreadState) (id : Nat) :
    RenderThreadState :=
  match s.GetRenderTexture id with
  | none => s
  | some tex =>
      { s with mRenderTexturesPrepareForUse :=
          s.mRenderTexturesPrepareForUse ++ [tex] }

/-- Modelled from the spec: HandleDeviceReset marks the device-reset
flag, releases the GL-bound shared resources (shared GL context and
surface pool), and clears the deferred-destruction and prepare queues
immediately (forced releases) rather than waiting for the worker drain;
the notify argument selects synchronous or deferred upstream
notification and does not affect this state. -/
def RenderThreadState.HandleDeviceReset (s : RenderThreadState)
    (_aNotify : Bool) : RenderThreadState :=
  { s with
    mHandlingDeviceReset := true,
    mSharedGL := false,
    mSurfacePool := false,
    mRenderTexturesPrepareForUse := [],
    mRenderTexturesDeferred := [] }

/-- Claim C4: when HandleDeviceReset returns, the prepare-for-use queue
and the deferred-destruction queue hold no texture-host reference (both
are empty), whatever their contents were before, so the forced release
does not wait for the normal drain cycle. -/
theorem handleDeviceReset_clears_queues (s : RenderThreadState) (aNotify : Bool) :
    (s.HandleDeviceReset aNotify).mRenderTexturesPrepareForUse = [] ∧
    (s.HandleDeviceReset aNotify).mRenderTexturesDeferred = [] :=
  ⟨rfl, rfl⟩

lemma register_ok_of_lookup_none (s : RenderThreadState) (id : Nat)
    (tex : RenderTextureHost) (h : s.GetRenderTexture id = none) :
    s.RegisterExternalImage id tex =
      RegisterResult.ok { s with mRenderTextures := (id, tex) :: s.mRenderTextures } ∧
    ({ s with mRenderTextures := (id, tex) :: s.mRenderTextures } :
        RenderThreadState).GetRenderTexture id = some tex := by
  constructor
  · simp [RenderThreadState.RegisterExternalImage, h]
  · simp [RenderThreadState.GetRenderTexture, List.find?]

lemma find_filter_ne_eq_none (l : List (Nat × RenderTextureHost)) (id : Nat) :
    (l.filter (fun p => p.1 != id)).find? (fun p => p.1 == id) = none := by
  rw [List.find?_eq_none]
  intro p hp
  have h2 := (List.mem_filter.1 hp).2
  simp only [bne_iff_ne, ne_eq] at h2
  simp [h2]

/-- Claim C6: registering an id that is already registered is a fatal
assertion failure, not a silent overwrite, while
register, unregister, register with a new texture succeeds and
afterwards the id maps to the new resource. -/
theorem registerExternalImage_duplicate_fatal (s : RenderThreadState) (id : Nat)
    (tex texNew : RenderTextureHost) (h : s.GetRenderTexture id = none) :
    ∃ s1, s.RegisterExternalImage id tex = RegisterResult.ok s1 ∧
      (∀ t, s1.RegisterExternalImage id t = RegisterResult.fatalAssert) ∧
      ∃ s2, (s1.UnregisterExternalImage id).RegisterExternalImage id texNew
          = RegisterResult.ok s2 ∧
        s2.GetRenderTexture id = some texNew := by
  refine ⟨{ s with mRenderTextures := (id, tex) :: s.mRenderTextures }, ?_, ?_, ?_⟩
  · simp [RenderThreadState.RegisterExternalImage, h]
  · intro t
    simp [RenderThreadState.RegisterExternalImage, RenderThreadState.GetRenderTexture,
      List.find?]
  · have hlook : (({ s with mRenderTextures := (id, tex) :: s.mRenderTextures
        } : RenderThreadState).UnregisterExternalImage id).GetRenderTexture id
        = none := by
      simp only [RenderThreadState.UnregisterExternalImage,
        RenderThreadState.GetRenderTexture]
      rw [find_filter_ne_eq_none]
      rfl
    obtain ⟨hreg, hget⟩ := register_ok_of_lookup_none _ id texNew hlook
    exact ⟨_, hreg, hget⟩

/-- Witness for registerExternalImage_duplicate_fatal at the empty
registry with id 7 and two distinct textures. -/
theorem registerExternalImage_duplicate_fatal_witness :
    ∃ s1, (⟨[], [], [], true, true, false⟩ :
        RenderThreadState).RegisterExternalImage 7 ⟨1⟩ = RegisterResult.ok s1 ∧
      (∀ t, s1.RegisterExternalImage 7 t = RegisterResult.fatalAssert) ∧
      ∃ s2, (s1.UnregisterExternalImage 7).RegisterExternalImage 7 ⟨2⟩
          = RegisterResult.ok s2 ∧
        s2.GetRenderTexture 7 = some ⟨2⟩ :=
  registerExternalImage_duplicate_fatal ⟨[], [], [], true, true, false⟩ 7 ⟨1⟩ ⟨2⟩ rfl

/-- One command of the prepare-for-use and lock protocol around external
textures: a thread stages an id for preparation, the render worker
drains the staged queue (HandlePrepareForUse), or a renderer locks the
texture of an id. -/
inductive TexCmd where
  | prepareForUse (id : Nat)
  | handlePrepareForUse
  | lock (id : Nat)
deriving DecidableEq

/-- Observable events of the protocol: the preparation hook of an entry
ran, or a texture was locked. -/
inductive TexEvent where
  | prepareHook (id : Nat)
  | locked (id : Nat)
deriving DecidableEq

/-- State of the prepare-for-use machinery: the staged queue
(mRenderTexturesPrepareForUse, by id) and the set of ids whose
preparation hook has run. -/
structure TexState where
  prepareQueue : List Nat
  prepared : List Nat
deriving DecidableEq

/-- Modelled from the spec: PrepareForUse appends the entry to the
staged queue; HandlePrepareForUse calls the preparation hook of each
staged entry exactly once and then clears the queue; Lock requires the
preparation of the id to have completed — locking an unprepared id is a
protocol violation and the machine rejects it (none). -/
def texStep (s : TexState) : TexCmd → Option (TexState × List TexEvent)
  | TexCmd.prepareForUse id =>
      some ({ s with prepareQueue := s.prepareQueue ++ [id] }, [])
  | TexCmd.handlePrepareForUse =>
      some ({ prepareQueue := [], prepared := s.prepared ++ s.prepareQueue },
        s.prepareQueue.map TexEvent.prepareHook)
  | TexCmd.lock id =>
      if id ∈ s.prepared then some (s, [TexEvent.locked id]) else none

/-- Running a command list, collecting the emitted events; none when a
lock was attempted on an unprepared id. -/
def texRun (s : TexState) : List TexCmd → Option (TexState × List TexEvent)
  | [] => some (s, [])
  | c :: cs =>
      match texStep s c with
      | none => none
      | some (s1, evs1) =>
          match texRun s1 cs with
          | none => none
          | some (s2, evs2) => some (s2, evs1 ++ evs2)

/-- The machine state before any texture activity. -/
def initTexState : TexState := ⟨[], []⟩

/-- Checks, scanning left to right, that every locked event is for an id
whose preparation hook already ran (either in the accumulator of hook
ids or earlier in the event list). -/
def locksPrepared (hooks : List Nat) : List TexEvent → Bool
  | [] => true
  | TexEvent.prepareHook id :: rest => locksPrepared (id :: hooks) rest
  | TexEvent.locked id :: rest => decide (id ∈ hooks) && locksPrepared hooks rest

lemma locksPrepared_mono (evs : List TexEvent) :
    ∀ hooks hooks2 : List Nat, (∀ x, x ∈ hooks → x ∈ hooks2) →
      locksPrepared hooks evs = true → locksPrepared hooks2 evs = true := by
  induction evs with
  | nil => intro hooks hooks2 _ _; rfl
  | cons e rest ih =>
    intro hooks hooks2 hsub hl
    cases e with
    | prepareHook id =>
      simp only [locksPrepared] at hl ⊢
      refine ih (id :: hooks) (id :: hooks2) ?_ hl
      intro x hx
      rcases List.mem_cons.1 hx with hx | hx
      · exact List.mem_cons.2 (Or.inl hx)
      · exact List.mem_cons.2 (Or.inr (hsub x hx))
    | locked id =>
      simp only [locksPrepared, Bool.and_eq_true, decide_eq_true_eq] at hl ⊢
      exact ⟨hsub id hl.1, ih hooks hooks2 hsub hl.2⟩

lemma locksPrepared_map_hook (ids : List Nat) :
    ∀ (hooks : List Nat) (rest : List TexEvent),
      locksPrepared (ids ++ hooks) rest = true →
      locksPrepared hooks (ids.map TexEvent.prepareHook ++ rest) = true := by
  induction ids with
  | nil =>
    intro hooks rest h
    simpa using h
  | cons i ids ih =>
    intro hooks rest h
    simp only [List.map_cons, List.cons_append, locksPrepared]
    apply ih (i :: hooks) rest
    apply locksPrepared_mono rest ((i :: ids) ++ hooks) (ids ++ i :: hooks) ?_ h
    intro x hx
    simp only [List.mem_append, List.mem_cons] at hx ⊢
    tauto

lemma texRun_locksPrepared (cs : List TexCmd) :
    ∀ (s : TexState) (hooks : List Nat), (∀ x, x ∈ s.prepared → x ∈ hooks) →
      ∀ (s2 : TexState) (evs : List TexEvent),
        texRun s cs = some (s2, evs) → locksPrepared hooks evs = true := by
  induction cs with
  | nil =>
    intro s hooks _ s2 evs h
    simp only [texRun, Option.some.injEq, Prod.mk.injEq] at h
    rw [← h.2]
    rfl
  | cons c cs ih =>
    intro s hooks hsub s2 evs h
    cases c with
    | prepareForUse id =>
      simp only [texRun, texStep] at h
      cases hrun : texRun { s with prepareQueue := s.prepareQueue ++ [id] } cs with
      | none => rw [hrun] at h; cases h
      | some p =>
        obtain ⟨s3, evs2⟩ := p
        rw [hrun] at h
        simp only [Option.some.injEq, Prod.mk.injEq, List.nil_append] at h
        rw [← h.2]
        exact ih { s with prepareQueue := s.prepareQueue ++ [id] } hooks hsub s3 evs2 hrun
    | handlePrepareForUse =>
      simp only [texRun, texStep] at h
      cases hrun : texRun ⟨[], s.prepared ++ s.prepareQueue⟩ cs with
      | none => rw [hrun] at h; cases h
      | some p =>
        obtain ⟨s3, evs2⟩ := p
        rw [hrun] at h
        simp only [Option.some.injEq, Prod.mk.injEq] at h
        rw [← h.2]
        apply locksPrepared_map_hook s.prepareQueue hooks evs2
        apply ih ⟨[], s.prepared ++ s.prepareQueue⟩ (s.prepareQueue ++ hooks) ?_ s3 evs2 hrun
        intro x hx
        simp only [List.mem_append] at hx ⊢
        rcases hx with hx | hx
        · exact Or.inr (hsub x hx)
        · exact Or.inl hx
    | lock id =>
      by_cases hmem : id ∈ s.prepared
      · simp only [texRun, texStep, if_pos hmem] at h
        cases hrun : texRun s cs with
        | none => rw [hrun] at h; cases h
        | some p =>
          obtain ⟨s3, evs2⟩ := p
          rw [hrun] at h
          simp only [Option.some.injEq, Prod.mk.injEq, List.singleton_append] at h
          rw [← h.2]
          simp only [locksPrepared, Bool.and_eq_true, decide_eq_true_eq]
          exact ⟨hsub id hmem, ih s hooks hsub s3 evs2 hrun⟩
      · simp only [texRun, texStep, if_neg hmem] at h
        cases h

/-- Claim C7: in every accepted run of the prepare-for-use and lock
protocol from the initial state, no lock on the texture of an external
image id ever occurs before the preparation hook for that id has run:
every locked event in the emitted event trace is preceded by a
prepareHook event for the same id. -/
theorem lock_requires_prepareForUse (cmds : List TexCmd) (s2 : TexState)
    (evs : List TexEvent) (h : texRun initTexState cmds = some (s2, evs)) :
    locksPrepared [] evs = true :=
  texRun_locksPrepared cmds initTexState []
    (fun x hx => absurd hx (List.not_mem_nil x)) s2 evs h

/-- Witness for lock_requires_prepareForUse: staging id 5, draining the
prepare queue, then locking id 5 is accepted and its trace satisfies the
prepare-before-lock discipline. -/
theorem lock_requires_prepareForUse_witness :
    locksPrepared [] [TexEvent.prepareHook 5, TexEvent.locked 5] = true :=
  lock_requires_prepareForUse
    [TexCmd.prepareForUse 5, TexCmd.handlePrepareForUse, TexCmd.lock 5]
    ⟨[], [5]⟩ [TexEvent.prepareHook 5, TexEvent.locked 5] (by decide)
